import Mathlib

/-!
Verification of the MCP bridge gateway (Express application in src/index.js,
with an earlier variant in src/unnamed/part_000).

The embedding below translates the relevant JavaScript functions into Lean:
the API-key middleware `authenticateApiKey`, the error serializer
`serializeError`, the route handlers (readiness guard, body validation,
tool-call construction, result passthrough), the startup sequence, and the
graceful-shutdown handler.  JS strings are Lean strings; JS string falsiness
is emptiness; byte-level comparison of keys (Buffer.from, a UTF-8 encoding)
is an explicit UTF-8 encoder into lists of naturals.  The upstream MCP
client is an external collaborator and is modelled as an opaque handle with
a `closed` flag plus a behaviour function supplied by each theorem.
-/

namespace MCPBridge

/-- JS falsiness of a string-or-absent value: `undefined`, `null` and the
empty string are falsy.  Mirrors the `!x` tests the source applies to
`API_KEY`, header values, and body fields. -/
def optFalsy : Option String → Bool
  | none => true
  | some s => s == ""

/-- Replace the first occurrence of `pat` in a character list, as the JS
`String.prototype.replace(string, string)` does (first occurrence only). -/
def replaceFirstAux (pat rep : List Char) : List Char → List Char
  | [] => []
  | c :: cs =>
    if pat.isPrefixOf (c :: cs) then rep ++ (c :: cs).drop pat.length
    else c :: replaceFirstAux pat rep cs

/-- JS `s.replace(pat, rep)` for string patterns: first occurrence only. -/
def replaceFirst (s pat rep : String) : String :=
  ⟨replaceFirstAux pat.toList rep.toList s.toList⟩

/-- UTF-8 encoding of one character as a list of byte values, as performed
by `Buffer.from(string)` in the source. -/
def utf8EncodeCharNat (c : Char) : List Nat :=
  let n := c.toNat
  if n < 128 then [n]
  else if n < 2048 then [192 + n / 64, 128 + n % 64]
  else if n < 65536 then [224 + n / 4096, 128 + (n / 64) % 64, 128 + n % 64]
  else [240 + n / 262144, 128 + (n / 4096) % 64, 128 + (n / 64) % 64, 128 + n % 64]

/-- The byte content of `Buffer.from(s)`: UTF-8 encoding of `s`. -/
def utf8Bytes (s : String) : List Nat :=
  (s.toList.map utf8EncodeCharNat).flatten

/-- The two credential-bearing request headers read by the middleware
(Express lower-cases header names). -/
structure AuthHeaders where
  xApiKey : Option String
  authorization : Option String
deriving DecidableEq, Repr

/-- Outcome of the middleware: pass the request on to the handler, or
answer immediately with a status and a JSON error envelope. -/
inductive AuthDecision where
  | proceed
  | reject (status : Nat) (error : String) (message : String)
deriving DecidableEq, Repr

/-- Middleware result together with the console warnings it emits. -/
structure AuthOutput where
  decision : AuthDecision
  logs : List String
deriving DecidableEq, Repr

/-- The per-request warning printed by `authenticateApiKey` when no API key
is configured (src/index.js line 45). -/
def noAuthWarning : String :=
  "Warning: API_KEY not set - API is running without authentication"

/-- The 401 envelope of src/index.js lines 52-55. -/
def authRequired401 : AuthOutput :=
  { decision := .reject 401 "Authentication required"
      "Please provide an API key via X-API-Key header or Authorization: Bearer <key>",
    logs := [] }

/-- The 403 envelope of src/index.js lines 65-81, identical in all three
rejection branches (length mismatch, content mismatch, thrown error). -/
def invalidKey403 : AuthOutput :=
  { decision := .reject 403 "Invalid API key" "The provided API key is not valid",
    logs := [] }

/-- The key a request presents, per src/index.js line 49:
the `x-api-key` header if truthy, otherwise the `authorization` header with
its first occurrence of the bearer marker removed. -/
def presentedKey (h : AuthHeaders) : Option String :=
  match h.xApiKey with
  | some s =>
    if s = "" then h.authorization.map (fun a => replaceFirst a "Bearer " "")
    else some s
  | none => h.authorization.map (fun a => replaceFirst a "Bearer " "")

/-- The middleware of src/index.js lines 42-85.  `cfg` is the configured
`API_KEY` environment value; `cmpError` records whether the JS runtime
raises inside the try-block around the buffer comparison (the catch clause
of lines 77-82 answers with the same 403 envelope).  The byte buffers of
the presented and configured keys are compared first by length and then by
content, exactly as the source does. -/
def authenticateApiKey (cfg : Option String) (h : AuthHeaders) (cmpError : Bool) :
    AuthOutput :=
  match cfg with
  | none => { decision := .proceed, logs := [noAuthWarning] }
  | some key =>
    if key = "" then { decision := .proceed, logs := [noAuthWarning] }
    else
      match presentedKey h with
      | none => authRequired401
      | some k =>
        if k = "" then authRequired401
        else if cmpError = true then invalidKey403
        else if (utf8Bytes k).length ≠ (utf8Bytes key).length then invalidKey403
        else if utf8Bytes k ≠ utf8Bytes key then invalidKey403
        else { decision := .proceed, logs := [] }

/-- The upstream MCP client handle (external collaborator from the SDK).
The gateway stores it in a module-level variable that is assigned during
initialization and never cleared; `closed` tracks whether the handle has
been closed by the shutdown sequence. -/
structure MCPClient where
  closed : Bool
deriving DecidableEq, Repr

/-- The error fields the route handlers read off a thrown upstream error
when building a 500 response (src/index.js lines 250-255). -/
structure ErrInfo where
  message : Option String
  code : Option String
  data : Option String
deriving DecidableEq, Repr

/-- Result of an upstream SDK call: a resolved payload (passed through
verbatim by the handlers, whatever its shape) or a thrown error. -/
inductive UpstreamOutcome (α : Type) where
  | ok (payload : α)
  | err (e : ErrInfo)
deriving DecidableEq, Repr

/-- A JSON argument value inside a tool call: the handlers send either a
string taken from the request or an explicit `null`. -/
inductive ArgVal where
  | nullV
  | strV (s : String)
deriving DecidableEq, Repr

/-- An upstream invocation as constructed by the route handlers: capability
name plus a key-ordered argument object. -/
structure ToolCall where
  name : String
  arguments : List (String × ArgVal)
deriving DecidableEq, Repr

/-- The body of an HTTP response produced by a handler: a bare
one-field error object, the full 500 error envelope, or an upstream
payload forwarded unchanged. -/
inductive RespBody (α : Type) where
  | errMsg (error : String)
  | errFull (error : Option String) (code : Option String) (data : Option String)
      (requestId : String)
  | payload (p : α)
deriving DecidableEq, Repr

/-- An HTTP response: status code and JSON body. -/
structure HttpResp (α : Type) where
  status : Nat
  body : RespBody α
deriving DecidableEq, Repr

/-- JS `x || null` on an optional string field, as used for
`login_customer_id` and `view`: falsy values become an explicit JSON
`null`, which is still sent under its key. -/
def jsOrNull : Option String → ArgVal
  | none => .nullV
  | some s => if s = "" then .nullV else .strV s

/-- The fields the GAQL-execute handler destructures from the request body
(src/index.js line 320). -/
structure GaqlBody where
  query : Option String
  customer_id : Option String
  login_customer_id : Option String
deriving DecidableEq, Repr

/-- The tool call built by the GAQL-execute handler
(src/index.js lines 335-342): `query` and `customer_id` verbatim,
`login_customer_id` defaulted to an explicit null when falsy. -/
def gaqlCall (body : GaqlBody) : ToolCall :=
  { name := "execute_gaql",
    arguments :=
      [("query", .strV (body.query.getD "")),
       ("customer_id", .strV (body.customer_id.getD "")),
       ("login_customer_id", jsOrNull body.login_customer_id)] }

/-- The tool call built by the reporting-view-doc handler
(src/index.js lines 434-437): `view` defaulted to an explicit null. -/
def viewDocCall (view : Option String) : ToolCall :=
  { name := "get_reporting_view_doc", arguments := [("view", jsOrNull view)] }

/-- The GET /api/tools handler (src/index.js lines 226-257): a 503 guard on
the uninitialized client, then `listTools`, forwarding a resolved result as
a 200 and a thrown error as the 500 envelope.  The upstream behaviour
`listTools` is a parameter because the network is external. -/
def toolsHandler {α : Type} (mcpClient : Option MCPClient)
    (listTools : MCPClient → UpstreamOutcome α) (rid : String) : HttpResp α :=
  match mcpClient with
  | none => ⟨503, .errMsg "MCP client not initialized"⟩
  | some c =>
    match listTools c with
    | .ok t => ⟨200, .payload t⟩
    | .err e => ⟨500, .errFull e.message e.code e.data rid⟩

/-- The POST /api/google-ads/execute-gaql handler (src/index.js lines
310-379): 503 guard, then the two required-field checks in source order,
then exactly one tool call whose resolved payload is forwarded verbatim as
a 200 and whose thrown error becomes the 500 envelope.  The second
component records the tool call issued to the upstream, `none` when no
invocation was constructed. -/
def executeGaqlHandler {α : Type} (mcpClient : Option MCPClient) (body : GaqlBody)
    (callTool : MCPClient → ToolCall → UpstreamOutcome α) (rid : String) :
    HttpResp α × Option ToolCall :=
  match mcpClient with
  | none => (⟨503, .errMsg "MCP client not initialized"⟩, none)
  | some c =>
    if optFalsy body.query = true then (⟨400, .errMsg "query is required"⟩, none)
    else if optFalsy body.customer_id = true then
      (⟨400, .errMsg "customer_id is required"⟩, none)
    else
      match callTool c (gaqlCall body) with
      | .ok p => (⟨200, .payload p⟩, some (gaqlCall body))
      | .err e => (⟨500, .errFull e.message e.code e.data rid⟩, some (gaqlCall body))

/-- The GET /api/google-ads/reporting-view-doc handler (src/index.js lines
421-460): 503 guard, then one tool call with the optional `view` query
parameter defaulted to explicit null. -/
def reportingViewDocHandler {α : Type} (mcpClient : Option MCPClient)
    (view : Option String) (callTool : MCPClient → ToolCall → UpstreamOutcome α)
    (rid : String) : HttpResp α × Option ToolCall :=
  match mcpClient with
  | none => (⟨503, .errMsg "MCP client not initialized"⟩, none)
  | some c =>
    match callTool c (viewDocCall view) with
    | .ok p => (⟨200, .payload p⟩, some (viewDocCall view))
    | .err e => (⟨500, .errFull e.message e.code e.data rid⟩, some (viewDocCall view))

/-- The mutable process state the handlers and the shutdown sequence share:
whether the listener is up and the module-level `mcpClient` variable. -/
structure GatewayState where
  serverUp : Bool
  mcpClient : Option MCPClient
deriving DecidableEq, Repr

/-- Effect of the shutdown drain callback (src/index.js lines 496-511) on
the shared state: the listener is down and `mcpClient.close()` has
completed on the handle, but the `mcpClient` variable itself is never
cleared, so the nullity guard in every handler still sees a client. -/
def afterClose (st : GatewayState) : GatewayState :=
  { serverUp := false, mcpClient := st.mcpClient.map (fun _ => { closed := true }) }

/-- Upstream behaviour of the external SDK once its transport is closed:
a call on a closed handle rejects (the SDK raises a not-connected error),
while an open handle behaves as `f`. -/
def closedRejects {α : Type} (e : ErrInfo) (f : MCPClient → UpstreamOutcome α) :
    MCPClient → UpstreamOutcome α :=
  fun c => if c.closed = true then .err e else f c

/-- Reading one own property of a JS object: the getter either yields a
value (`none` standing for the JS `undefined`) or raises. -/
inductive PropAccess where
  | val (v : Option String)
  | throws
deriving DecidableEq, Repr

/-- One object of a prototype chain: its own property names, in
enumeration order, each with its getter behaviour. -/
abbrev PropLevel := List (String × PropAccess)

/-- The own-property entry of a level for a name, if the level owns it. -/
def levelGet (l : PropLevel) (p : String) : Option PropAccess :=
  (l.find? (fun kv => kv.1 == p)).map (fun kv => kv.2)

/-- JS property lookup `obj[p]` along the prototype chain: the first level
owning the name decides; a throwing getter propagates as `Except.error`;
a name owned nowhere reads as `undefined`. -/
def chainGet : List PropLevel → String → Except Unit (Option String)
  | [], _ => .ok none
  | l :: rest, p =>
    match levelGet l p with
    | some (.val v) => .ok v
    | some .throws => .error ()
    | none => chainGet rest p

/-- A value stored in the harvested `allProperties` map: a property value,
or the literal string the source stores when the getter raised. -/
inductive HVal where
  | val (v : Option String)
  | cannotAccess
deriving DecidableEq, Repr

/-- JS truthiness of a stored `allProps` entry: `undefined` and the empty
string are falsy; the cannot-access marker is a non-empty string, hence
truthy. -/
def hvalTruthy : HVal → Bool
  | .val none => false
  | .val (some s) => !(s == "")
  | .cannotAccess => true

/-- The `!allProps[prop]` test of src/index.js line 103: true when the key
is absent or its stored value is falsy. -/
def propsGetTruthy (acc : List (String × HVal)) (p : String) : Bool :=
  match (acc.find? (fun kv => kv.1 == p)).map (fun kv => kv.2) with
  | some h => hvalTruthy h
  | none => false

/-- JS object assignment `allProps[p] = h`: overwrite in place when the key
exists, append otherwise (insertion order preserved). -/
def upsertProp : List (String × HVal) → String → HVal → List (String × HVal)
  | [], p, h => [(p, h)]
  | (q, x) :: rest, p, h =>
    if q == p then (q, h) :: rest else (q, x) :: upsertProp rest p h

/-- The inner forEach of src/index.js lines 102-110 over one prototype
level: a property is harvested when the accumulator holds nothing truthy
for it and it is not `stack`; a getter that raises is swallowed and
recorded as the cannot-access marker. -/
def harvestLevel : List (String × HVal) → PropLevel → List (String × HVal)
  | acc, [] => acc
  | acc, (p, a) :: rest =>
    harvestLevel
      (if propsGetTruthy acc p = false ∧ p ≠ "stack" then
        upsertProp acc p (match a with | .val v => .val v | .throws => .cannotAccess)
      else acc)
      rest

/-- The do-while prototype walk of src/index.js lines 100-111. -/
def harvestChain (chain : List PropLevel) : List (String × HVal) :=
  chain.foldl harvestLevel []

/-- The object built by `serializeError` (src/index.js lines 89-95 and
112): the five named reads plus the harvested property map. -/
structure ErrorEnvelope where
  message : Option String
  name : Option String
  code : Option String
  data : Option String
  stack : Option String
  allProperties : List (String × HVal)
deriving DecidableEq, Repr

/-- An arbitrary JS value thrown as an error: `nullish` covers `null` and
`undefined`, on which any property read raises; an object carries its
prototype chain. -/
inductive JsErrorVal where
  | nullish
  | obj (chain : List PropLevel)
deriving DecidableEq, Repr

/-- The error serializer of src/index.js lines 88-118.  The five named
property reads on lines 90-94 are unprotected: a nullish input, or an
object whose getter for one of these names raises, makes the function
itself throw (`Except.error`).  The harvesting loop is protected and never
fails. -/
def serializeError : JsErrorVal → Except Unit ErrorEnvelope
  | .nullish => .error ()
  | .obj chain =>
    match chainGet chain "message" with
    | .error e => .error e
    | .ok message =>
      match chainGet chain "name" with
      | .error e => .error e
      | .ok nm =>
        match chainGet chain "code" with
        | .error e => .error e
        | .ok code =>
          match chainGet chain "data" with
          | .error e => .error e
          | .ok dt =>
            match chainGet chain "stack" with
            | .error e => .error e
            | .ok stk =>
              .ok { message := message, name := nm, code := code, data := dt,
                    stack := stk, allProperties := harvestChain chain }

/-- The environment configuration the startup block reads. -/
structure Config where
  mcpServerUrl : Option String
  apiKey : Option String
  nodeEnv : String
deriving DecidableEq, Repr

/-- Observable startup events, in program order. -/
inductive Ev where
  | warnNoKey
  | initBegin
  | initDone (ok : Bool)
  | listen
  | exitP (code : Nat)
deriving DecidableEq, Repr

/-- The top-level startup sequence of src/index.js: the environment checks
of lines 19-31, then the try-block of lines 472-488 that awaits
`initMCPClient()` and only then starts the listener, exiting with code 1
when initialization throws.  `connectOk` is whether the upstream connect
succeeds (external network behaviour). -/
def startupTrace (cfg : Config) (connectOk : Bool) : List Ev :=
  if optFalsy cfg.mcpServerUrl = true then [.exitP 1]
  else if optFalsy cfg.apiKey = true ∧ cfg.nodeEnv = "production" then [.exitP 1]
  else
    (if optFalsy cfg.apiKey = true then [Ev.warnNoKey] else []) ++
    [Ev.initBegin] ++
    (if connectOk = true then [Ev.initDone true, Ev.listen]
     else [Ev.initDone false, Ev.exitP 1])

/-- A scheduled unit of the shutdown sequence on the event loop: the
synchronous start of one registered drain callback (src/index.js lines
496-511, up to its await of `mcpClient.close()`), or its resumption once
that close settles. -/
inductive SdTask where
  | cbRun
  | cbResume
deriving DecidableEq, Repr

/-- Event-loop state for the shutdown sequence.  `mcpPresent` is the
module-level `mcpClient` variable, which the source never clears;
`closeRejects` is whether the awaited `mcpClient.close()` settles by
rejecting; `closeCalls` counts invocations of `mcpClient.close()`. -/
structure SdState where
  queue : List SdTask
  mcpPresent : Bool
  closeRejects : Bool
  closeCalls : Nat
  exitCode : Option Nat
deriving DecidableEq, Repr

/-- One event-loop step of the shutdown sequence.  Each `gracefulShutdown`
call registers one drain callback on the listener (the listener is the
external collaborator of spec section 4.5: every registered callback runs
when the drain completes, and registering on an already-closing listener
does not throw).  A callback started while `mcpClient` is set calls
`mcpClient.close()` unconditionally and suspends on the await; its
resumption runs the catch (a rejected close is logged, never rethrown) and
then exits with code 0.  A callback started with no client exits 0
directly. -/
def sdStep (s : SdState) : SdState :=
  match s.exitCode with
  | some _ => s
  | none =>
    match s.queue with
    | [] => s
    | .cbRun :: rest =>
      if s.mcpPresent = true then
        { s with queue := rest ++ [SdTask.cbResume], closeCalls := s.closeCalls + 1 }
      else
        { s with queue := rest, exitCode := some 0 }
    | .cbResume :: rest =>
      match (if s.closeRejects = true then Except.error "close failed"
             else Except.ok ()) with
      | .error _ => { s with queue := rest, exitCode := some 0 }
      | .ok _ => { s with queue := rest, exitCode := some 0 }

/-- Run the event loop for a bounded number of steps. -/
def sdRun : Nat → SdState → SdState
  | 0, s => s
  | n + 1, s => sdRun n (sdStep s)

/-- Initial event-loop state after two termination signals arrive in quick
succession while the server is up: both `gracefulShutdown` calls have run,
each registering one drain callback on the listener. -/
def sdDoubleSignal (rej : Bool) : SdState :=
  { queue := [SdTask.cbRun, SdTask.cbRun], mcpPresent := true, closeRejects := rej,
    closeCalls := 0, exitCode := none }

/-- C1: with a credential configured, a request presenting no key (neither
header yields a truthy value) is answered 401; a presented key that fails
the comparison path for any reason (a raised comparison error, a length
mismatch, or a content mismatch of the UTF-8 byte buffers) is answered 403
with the one invalid-key envelope; a presented key whose bytes equal the
credential bytes proceeds to the handler. -/
theorem auth_C1 (key : String) (h : AuthHeaders) (ce : Bool) (hk : key ≠ "") :
    ((presentedKey h = none ∨ presentedKey h = some "") →
      (authenticateApiKey (some key) h ce).decision =
        AuthDecision.reject 401 "Authentication required"
          "Please provide an API key via X-API-Key header or Authorization: Bearer <key>") ∧
    (∀ k, presentedKey h = some k → k ≠ "" →
      ((ce = true ∨ utf8Bytes k ≠ utf8Bytes key) →
        (authenticateApiKey (some key) h ce).decision =
          AuthDecision.reject 403 "Invalid API key" "The provided API key is not valid") ∧
      (ce = false → utf8Bytes k = utf8Bytes key →
        (authenticateApiKey (some key) h ce).decision = AuthDecision.proceed)) := by
  refine ⟨?_, ?_⟩
  · rintro (hp | hp) <;> simp [authenticateApiKey, hp, hk, authRequired401]
  · intro k hpk hkne
    refine ⟨?_, ?_⟩
    · rintro (hce | hne)
      · simp [authenticateApiKey, hpk, hk, hkne, hce, invalidKey403]
      · cases ce with
        | true => simp [authenticateApiKey, hpk, hk, hkne, invalidKey403]
        | false =>
          by_cases hlen : (utf8Bytes k).length = (utf8Bytes key).length
          · simp [authenticateApiKey, hpk, hk, hkne, hlen, hne, invalidKey403]
          · simp [authenticateApiKey, hpk, hk, hkne, hlen, invalidKey403]
    · intro hce heq
      simp [authenticateApiKey, hpk, hk, hkne, hce, heq]

/-- Witness for C1 at a concrete credential and matching header. -/
theorem auth_C1_witness :
    (authenticateApiKey (some "secret") ⟨some "secret", none⟩ false).decision =
      AuthDecision.proceed :=
  ((auth_C1 "secret" ⟨some "secret", none⟩ false (by decide)).2 "secret" rfl
    (by decide)).2 rfl rfl

/-- C2: an invoke evaluated while the client is uninitialized is answered
503 with the not-initialized envelope immediately, for every possible
upstream behaviour (so the absent handle is never touched and the result
cannot depend on it), and the GAQL handler in the same state issues no
invocation at all. -/
theorem tools_C2 {α : Type} (f g : MCPClient → UpstreamOutcome α)
    (tf : MCPClient → ToolCall → UpstreamOutcome α) (body : GaqlBody) (rid : String) :
    toolsHandler none f rid = ⟨503, RespBody.errMsg "MCP client not initialized"⟩ ∧
    toolsHandler none f rid = toolsHandler none g rid ∧
    executeGaqlHandler none body tf rid =
      (⟨503, RespBody.errMsg "MCP client not initialized"⟩, none) :=
  ⟨rfl, rfl, rfl⟩

/-- C3: a resolved upstream payload, of any shape whatsoever (the payload
type is opaque, so this covers bodies carrying an isError flag), is
forwarded as a 200 whose body is that very payload, and the issued
invocation is the one constructed from the request. -/
theorem passthrough_C3 {α : Type} (c : MCPClient) (body : GaqlBody)
    (f : MCPClient → ToolCall → UpstreamOutcome α) (rid : String) (p : α)
    (hq : optFalsy body.query = false) (hc : optFalsy body.customer_id = false)
    (hf : f c (gaqlCall body) = UpstreamOutcome.ok p) :
    executeGaqlHandler (some c) body f rid =
      (⟨200, RespBody.payload p⟩, some (gaqlCall body)) := by
  simp [executeGaqlHandler, hq, hc, hf]

/-- Witness for C3 at a concrete upstream payload carrying an isError
marker. -/
theorem passthrough_C3_witness :
    executeGaqlHandler (some ⟨false⟩) ⟨some "SELECT 1", some "123", none⟩
      (fun _ _ => UpstreamOutcome.ok "isError:true payload") "r" =
      (⟨200, RespBody.payload "isError:true payload"⟩,
        some (gaqlCall ⟨some "SELECT 1", some "123", none⟩)) :=
  passthrough_C3 ⟨false⟩ ⟨some "SELECT 1", some "123", none⟩
    (fun _ _ => UpstreamOutcome.ok "isError:true payload") "r"
    "isError:true payload" rfl rfl rfl

/-- C4: with the client initialized (the only state a served request can
observe, since the listener starts only after initialization), a body with
a falsy `query` is answered 400 with the query-required envelope, a body
with a truthy `query` but falsy `customer_id` is answered 400 with the
customer-id-required envelope, and in both cases no invocation is
constructed or issued. -/
theorem gaql_validation_C4 {α : Type} (c : MCPClient) (body : GaqlBody)
    (f : MCPClient → ToolCall → UpstreamOutcome α) (rid : String) :
    (optFalsy body.query = true →
      executeGaqlHandler (some c) body f rid =
        (⟨400, RespBody.errMsg "query is required"⟩, none)) ∧
    (optFalsy body.query = false → optFalsy body.customer_id = true →
      executeGaqlHandler (some c) body f rid =
        (⟨400, RespBody.errMsg "customer_id is required"⟩, none)) := by
  refine ⟨?_, ?_⟩
  · intro hq; simp [executeGaqlHandler, hq]
  · intro hq hc; simp [executeGaqlHandler, hq, hc]

/-- Witness for C4 at concrete invalid bodies. -/
theorem gaql_validation_C4_witness :
    executeGaqlHandler (some ⟨false⟩) ⟨none, some "123", none⟩
      (fun _ _ => UpstreamOutcome.ok "x") "r" =
      (⟨400, RespBody.errMsg "query is required"⟩, none) ∧
    executeGaqlHandler (some ⟨false⟩) ⟨some "SELECT 1", none, none⟩
      (fun _ _ => UpstreamOutcome.ok "x") "r" =
      (⟨400, RespBody.errMsg "customer_id is required"⟩, none) :=
  ⟨(gaql_validation_C4 ⟨false⟩ ⟨none, some "123", none⟩
      (fun _ _ => UpstreamOutcome.ok "x") "r").1 rfl,
   (gaql_validation_C4 ⟨false⟩ ⟨some "SELECT 1", none, none⟩
      (fun _ _ => UpstreamOutcome.ok "x") "r").2 rfl rfl⟩

/-- Helper: a falsy optional field becomes an explicit JSON null
argument. -/
theorem jsOrNull_falsy (o : Option String) (ho : optFalsy o = true) :
    jsOrNull o = ArgVal.nullV := by
  cases o with
  | none => rfl
  | some s =>
    simp [optFalsy] at ho
    simp [jsOrNull, ho]

/-- C10: when the optional `login_customer_id` body field is falsy on a
valid GAQL request, the issued invocation still carries the
`login_customer_id` key, with the explicit null value; likewise a falsy
`view` query parameter is sent as the explicit-null `view` argument by the
reporting-view-doc handler. -/
theorem nullArg_C10 {α : Type} (c : MCPClient) (body : GaqlBody) (view : Option String)
    (f g : MCPClient → ToolCall → UpstreamOutcome α) (rid rid2 : String)
    (hq : optFalsy body.query = false) (hc : optFalsy body.customer_id = false)
    (hl : optFalsy body.login_customer_id = true) (hv : optFalsy view = true) :
    (executeGaqlHandler (some c) body f rid).2 = some (gaqlCall body) ∧
    ("login_customer_id", ArgVal.nullV) ∈ (gaqlCall body).arguments ∧
    (reportingViewDocHandler (some c) view g rid2).2 = some (viewDocCall view) ∧
    (viewDocCall view).arguments = [("view", ArgVal.nullV)] := by
  refine ⟨?_, ?_, ?_, ?_⟩
  · rcases hr : f c (gaqlCall body) with p | e <;>
      simp [executeGaqlHandler, hq, hc, hr]
  · simp [gaqlCall, jsOrNull_falsy body.login_customer_id hl]
  · rcases hr : g c (viewDocCall view) with p | e <;>
      simp [reportingViewDocHandler, hr]
  · simp [viewDocCall, jsOrNull_falsy view hv]

/-- Witness for C10 at a concrete request with the optional fields
absent. -/
theorem nullArg_C10_witness :
    (executeGaqlHandler (some ⟨false⟩) ⟨some "SELECT 1", some "123", none⟩
      (fun _ _ => UpstreamOutcome.ok "x") "r").2 =
        some (gaqlCall ⟨some "SELECT 1", some "123", none⟩) ∧
    ("login_customer_id", ArgVal.nullV) ∈
      (gaqlCall ⟨some "SELECT 1", some "123", none⟩).arguments ∧
    (reportingViewDocHandler (some ⟨false⟩) none
      (fun _ _ => UpstreamOutcome.ok "x") "r").2 = some (viewDocCall none) ∧
    (viewDocCall none).arguments = [("view", ArgVal.nullV)] :=
  nullArg_C10 ⟨false⟩ ⟨some "SELECT 1", some "123", none⟩ none
    (fun _ _ => UpstreamOutcome.ok "x") (fun _ _ => UpstreamOutcome.ok "x")
    "r" "r" rfl rfl rfl rfl

/-- C5 counterexample: after the shutdown drain callback has completed the
close of the session, an invoke evaluated against the resulting state is
answered 500 with the upstream error surfaced in the plain error envelope,
not 503 — the nullity guard still sees the never-cleared client variable
and forwards the call to the closed handle. -/
theorem close_C5_counterexample :
    (toolsHandler (afterClose ⟨true, some ⟨false⟩⟩).mcpClient
      (closedRejects ⟨some "Not connected", none, none⟩
        (fun _ => UpstreamOutcome.ok "tools")) "r").status = 500 ∧
    (toolsHandler (afterClose ⟨true, some ⟨false⟩⟩).mcpClient
      (closedRejects ⟨some "Not connected", none, none⟩
        (fun _ => UpstreamOutcome.ok "tools")) "r").status ≠ 503 ∧
    (toolsHandler (afterClose ⟨true, some ⟨false⟩⟩).mcpClient
      (closedRejects ⟨some "Not connected", none, none⟩
        (fun _ => UpstreamOutcome.ok "tools")) "r").body =
      RespBody.errFull (some "Not connected") none none "r" := by
  refine ⟨rfl, ?_, rfl⟩
  decide

/-- C5 as amended: the client variable remains set after close completes
(the readiness guard cannot distinguish closed from ready), and an invoke
evaluated in the post-close state is caught at the handler boundary and
answered 500 with the normalized envelope of whatever error the closed
handle raises — a plain upstream error response, not the 503 reserved for
the never-initialized state. -/
theorem close_C5_amended {α : Type} (st : GatewayState) (c : MCPClient) (e : ErrInfo)
    (f : MCPClient → UpstreamOutcome α) (rid : String)
    (hc : st.mcpClient = some c) :
    (afterClose st).mcpClient.isSome = true ∧
    toolsHandler (afterClose st).mcpClient (closedRejects e f) rid =
      ⟨500, RespBody.errFull e.message e.code e.data rid⟩ := by
  refine ⟨?_, ?_⟩
  · simp [afterClose, hc]
  · simp [afterClose, hc, toolsHandler, closedRejects]

/-- Witness for the amended C5 at a concrete ready-then-closed state. -/
theorem close_C5_witness :
    (afterClose ⟨true, some ⟨false⟩⟩).mcpClient.isSome = true ∧
    toolsHandler (α := String) (afterClose ⟨true, some ⟨false⟩⟩).mcpClient
      (closedRejects ⟨some "closed", none, none⟩ (fun _ => UpstreamOutcome.ok "t"))
      "r" = ⟨500, RespBody.errFull (some "closed") none none "r"⟩ :=
  close_C5_amended ⟨true, some ⟨false⟩⟩ ⟨false⟩ ⟨some "closed", none, none⟩
    (fun _ => UpstreamOutcome.ok "t") "r" rfl

/-- C6 counterexample: two termination signals in quick succession register
two drain callbacks, and the shutdown run invokes the session close twice
(each callback calls it unconditionally while the client variable is still
set; there is no reentrance guard), refuting that shutdown never closes
the session twice. -/
theorem shutdown_C6_counterexample :
    ¬ ((sdRun 4 (sdDoubleSignal false)).closeCalls ≤ 1) := by decide

/-- C6 as amended: a double-triggered shutdown never throws — a close that
settles by rejecting is caught by the callback and the process still exits
with code 0 — and a shutdown triggered with no session ever opened calls
close zero times; but the session close is invoked once per trigger, twice
in the double-signal run, the second invocation landing on an
already-closed session. -/
theorem shutdown_C6_amended :
    (∀ rej : Bool, (sdRun 4 (sdDoubleSignal rej)).exitCode = some 0 ∧
      (sdRun 4 (sdDoubleSignal rej)).closeCalls = 2) ∧
    (sdRun 2 ⟨[SdTask.cbRun], false, false, 0, none⟩).closeCalls = 0 ∧
    (sdRun 2 ⟨[SdTask.cbRun], false, false, 0, none⟩).exitCode = some 0 := by
  refine ⟨?_, rfl, rfl⟩
  intro rej
  cases rej <;> exact ⟨rfl, rfl⟩

/-- C7 counterexample: the serializer applied to a nullish error throws
(the unprotected read of `.message` on line 90 raises on null and
undefined inputs), and an object error with no message field yields an
envelope whose message is absent — there is no fallback to an
unknown-error message anywhere in the function. -/
theorem serialize_C7_counterexample :
    serializeError JsErrorVal.nullish = Except.error () ∧
    serializeError (JsErrorVal.obj [[("foo", PropAccess.val (some "bar"))]]) =
      Except.ok { message := none, name := none, code := none, data := none,
                  stack := none,
                  allProperties := [("foo", HVal.val (some "bar"))] } ∧
    (∀ env, serializeError (JsErrorVal.obj [[("foo", PropAccess.val (some "bar"))]]) =
        Except.ok env → env.message ≠ some "unknown error") := by
  refine ⟨rfl, rfl, ?_⟩
  intro env henv
  cases henv
  decide

/-- C7 as amended: for object errors whose five named property reads do
not raise, the serializer returns an envelope without throwing, each named
field carrying exactly what the chain lookup produced (absent fields stay
absent — no generic fallback message) and the property harvest attached;
and a property whose getter raises during the harvest is swallowed and
recorded as the cannot-access marker, as the concrete run shows.  Nullish
inputs, however, make the serializer itself throw. -/
theorem serialize_C7_amended (chain : List PropLevel) (m nm cd dt st : Option String)
    (hm : chainGet chain "message" = Except.ok m)
    (hn : chainGet chain "name" = Except.ok nm)
    (hc : chainGet chain "code" = Except.ok cd)
    (hd : chainGet chain "data" = Except.ok dt)
    (hs : chainGet chain "stack" = Except.ok st) :
    serializeError (JsErrorVal.obj chain) =
      Except.ok { message := m, name := nm, code := cd, data := dt, stack := st,
                  allProperties := harvestChain chain } ∧
    serializeError (JsErrorVal.obj
        [[("message", PropAccess.val (some "boom")), ("weird", PropAccess.throws),
          ("stack", PropAccess.val (some "trace"))]]) =
      Except.ok { message := some "boom", name := none, code := none, data := none,
                  stack := some "trace",
                  allProperties := [("message", HVal.val (some "boom")),
                                    ("weird", HVal.cannotAccess)] } := by
  refine ⟨?_, rfl⟩
  simp [serializeError, hm, hn, hc, hd, hs]

/-- Witness for the amended C7 at the empty prototype chain. -/
theorem serialize_C7_witness :
    serializeError (JsErrorVal.obj []) =
      Except.ok { message := none, name := none, code := none, data := none,
                  stack := none, allProperties := harvestChain [] } ∧
    serializeError (JsErrorVal.obj
        [[("message", PropAccess.val (some "boom")), ("weird", PropAccess.throws),
          ("stack", PropAccess.val (some "trace"))]]) =
      Except.ok { message := some "boom", name := none, code := none, data := none,
                  stack := some "trace",
                  allProperties := [("message", HVal.val (some "boom")),
                                    ("weird", HVal.cannotAccess)] } :=
  serialize_C7_amended [] none none none none none rfl rfl rfl rfl rfl

/-- C8 counterexample: with no credential configured, a single run of the
verifier on one request emits a warning — the claim that the verifier logs
nothing per request in disabled mode is false. -/
theorem auth_C8_counterexample :
    (authenticateApiKey none ⟨none, none⟩ false).logs ≠ [] := by decide

/-- C8 as amended: with no credential configured every request proceeds as
if authenticated, and the startup sequence logs the standing no-credential
warning exactly once; but the verifier additionally emits a warning on
every request it processes in this mode, not only at startup. -/
theorem auth_C8_amended (h : AuthHeaders) (ce : Bool) (cfg : Config) (ok : Bool)
    (hurl : optFalsy cfg.mcpServerUrl = false) (hkey : cfg.apiKey = none)
    (henv : cfg.nodeEnv ≠ "production") :
    (authenticateApiKey none h ce).decision = AuthDecision.proceed ∧
    (authenticateApiKey none h ce).logs = [noAuthWarning] ∧
    (startupTrace cfg ok).count Ev.warnNoKey = 1 := by
  refine ⟨rfl, rfl, ?_⟩
  have hkey2 : optFalsy cfg.apiKey = true := by rw [hkey]; rfl
  cases ok <;> simp [startupTrace, hurl, hkey2, henv, List.count_cons]

/-- Witness for the amended C8 at a concrete request and configuration. -/
theorem auth_C8_witness :
    (authenticateApiKey none ⟨none, none⟩ false).decision = AuthDecision.proceed ∧
    (authenticateApiKey none ⟨none, none⟩ false).logs = [noAuthWarning] ∧
    (startupTrace ⟨some "http://x", none, "development"⟩ true).count Ev.warnNoKey = 1 :=
  auth_C8_amended ⟨none, none⟩ false ⟨some "http://x", none, "development"⟩ true
    rfl rfl (by decide)

/-- C9: whenever the startup sequence reaches the listening state, the
trace ends with exactly the successful completion of initialization
immediately followed by the listen event, with no initialization attempt
and no listen before it; and when the upstream connect fails, the process
never listens and any initialization attempt ends in a failure followed by
exit code 1. -/
theorem startup_C9 (cfg : Config) (ok : Bool) :
    (Ev.listen ∈ startupTrace cfg ok →
      ∃ pre, startupTrace cfg ok =
          pre ++ [Ev.initBegin, Ev.initDone true, Ev.listen] ∧
        Ev.initBegin ∉ pre ∧ Ev.listen ∉ pre) ∧
    (ok = false →
      Ev.listen ∉ startupTrace cfg ok ∧
      (Ev.initBegin ∈ startupTrace cfg ok →
        ∃ pre, startupTrace cfg ok =
          pre ++ [Ev.initBegin, Ev.initDone false, Ev.exitP 1])) := by
  by_cases h1 : optFalsy cfg.mcpServerUrl = true
  · constructor
    · intro hmem; exact absurd hmem (by simp [startupTrace, h1])
    · intro _
      constructor
      · simp [startupTrace, h1]
      · intro hmem; exact absurd hmem (by simp [startupTrace, h1])
  · by_cases h2 : optFalsy cfg.apiKey = true ∧ cfg.nodeEnv = "production"
    · constructor
      · intro hmem; exact absurd hmem (by simp [startupTrace, h1, h2])
      · intro _
        constructor
        · simp [startupTrace, h1, h2]
        · intro hmem; exact absurd hmem (by simp [startupTrace, h1, h2])
    · by_cases h3 : optFalsy cfg.apiKey = true
      · have hprod : cfg.nodeEnv ≠ "production" := fun hp => h2 ⟨h3, hp⟩
        cases ok with
        | false =>
          constructor
          · intro hmem
            exact absurd hmem (by simp [startupTrace, h1, h3, hprod])
          · intro _
            constructor
            · simp [startupTrace, h1, h3, hprod]
            · intro _
              exact ⟨[Ev.warnNoKey], by simp [startupTrace, h1, h3, hprod]⟩
        | true =>
          constructor
          · intro _
            exact ⟨[Ev.warnNoKey], by simp [startupTrace, h1, h3, hprod], by decide,
              by decide⟩
          · intro hfalse; cases hfalse
      · cases ok with
        | false =>
          constructor
          · intro hmem; exact absurd hmem (by simp [startupTrace, h1, h2, h3])
          · intro _
            constructor
            · simp [startupTrace, h1, h2, h3]
            · intro _
              exact ⟨[], by simp [startupTrace, h1, h2, h3]⟩
        | true =>
          constructor
          · intro _
            exact ⟨[], by simp [startupTrace, h1, h2, h3], by decide, by decide⟩
          · intro hfalse; cases hfalse

/-- Witness for C9 at a concrete valid configuration with a successful
connect. -/
theorem startup_C9_witness :
    ∃ pre, startupTrace ⟨some "http://x", some "k", "development"⟩ true =
        pre ++ [Ev.initBegin, Ev.initDone true, Ev.listen] ∧
      Ev.initBegin ∉ pre ∧ Ev.listen ∉ pre :=
  (startup_C9 ⟨some "http://x", some "k", "development"⟩ true).1 (by decide)

end MCPBridge
